import Mathlib

/-!
Verification development for the eufy-security-ws-python websocket client.

The Python sources are shallowly embedded: dictionaries become association
lists over a JSON-like value type, exceptions become the Except monad, and
asynchronous control flow is split into explicit phases (the state before an
await point and the state after it).  Mutation of objects becomes explicit
state passing.
-/

set_option autoImplicit false

namespace EufySec

/-- JSON-like runtime values, as decoded from websocket frames.  Object
fields use general value keys because Python dictionaries accept any
hashable key (event handlers may index a property bag with whatever
appeared in the frame). -/
inductive JValue where
  | null : JValue
  | bool (b : Bool) : JValue
  | int (n : Int) : JValue
  | str (s : String) : JValue
  | arr (xs : List JValue) : JValue
  | obj (fields : List (JValue × JValue)) : JValue

mutual

/-- Structural equality of values, mirroring Python equality on decoded
JSON data. -/
def JValue.beq : JValue → JValue → Bool
  | .null, .null => true
  | .bool a, .bool c => a == c
  | .int a, .int c => a == c
  | .str a, .str c => a == c
  | .arr xs, .arr ys => JValue.beqList xs ys
  | .obj xs, .obj ys => JValue.beqFields xs ys
  | _, _ => false

/-- Elementwise equality of value lists. -/
def JValue.beqList : List JValue → List JValue → Bool
  | [], [] => true
  | x :: xs, y :: ys => JValue.beq x y && JValue.beqList xs ys
  | _, _ => false

/-- Elementwise equality of key-value field lists. -/
def JValue.beqFields : List (JValue × JValue) → List (JValue × JValue) → Bool
  | [], [] => true
  | (k, v) :: xs, (k2, v2) :: ys =>
      JValue.beq k k2 && JValue.beq v v2 && JValue.beqFields xs ys
  | _, _ => false

end

mutual

theorem JValue.beq_iff : (a b : JValue) → (JValue.beq a b = true ↔ a = b)
  | .null, .null => by simp [JValue.beq]
  | .null, .bool _ => by simp [JValue.beq]
  | .null, .int _ => by simp [JValue.beq]
  | .null, .str _ => by simp [JValue.beq]
  | .null, .arr _ => by simp [JValue.beq]
  | .null, .obj _ => by simp [JValue.beq]
  | .bool _, .null => by simp [JValue.beq]
  | .bool _, .bool _ => by simp [JValue.beq]
  | .bool _, .int _ => by simp [JValue.beq]
  | .bool _, .str _ => by simp [JValue.beq]
  | .bool _, .arr _ => by simp [JValue.beq]
  | .bool _, .obj _ => by simp [JValue.beq]
  | .int _, .null => by simp [JValue.beq]
  | .int _, .bool _ => by simp [JValue.beq]
  | .int _, .int _ => by simp [JValue.beq]
  | .int _, .str _ => by simp [JValue.beq]
  | .int _, .arr _ => by simp [JValue.beq]
  | .int _, .obj _ => by simp [JValue.beq]
  | .str _, .null => by simp [JValue.beq]
  | .str _, .bool _ => by simp [JValue.beq]
  | .str _, .int _ => by simp [JValue.beq]
  | .str _, .str _ => by simp [JValue.beq]
  | .str _, .arr _ => by simp [JValue.beq]
  | .str _, .obj _ => by simp [JValue.beq]
  | .arr _, .null => by simp [JValue.beq]
  | .arr _, .bool _ => by simp [JValue.beq]
  | .arr _, .int _ => by simp [JValue.beq]
  | .arr _, .str _ => by simp [JValue.beq]
  | .arr xs, .arr ys => by
      simp [JValue.beq, JValue.beqList_iff xs ys]
  | .arr _, .obj _ => by simp [JValue.beq]
  | .obj _, .null => by simp [JValue.beq]
  | .obj _, .bool _ => by simp [JValue.beq]
  | .obj _, .int _ => by simp [JValue.beq]
  | .obj _, .str _ => by simp [JValue.beq]
  | .obj _, .arr _ => by simp [JValue.beq]
  | .obj xs, .obj ys => by
      simp [JValue.beq, JValue.beqFields_iff xs ys]

theorem JValue.beqList_iff :
    (xs ys : List JValue) → (JValue.beqList xs ys = true ↔ xs = ys)
  | [], [] => by simp [JValue.beqList]
  | [], _ :: _ => by simp [JValue.beqList]
  | _ :: _, [] => by simp [JValue.beqList]
  | x :: xs, y :: ys => by
      simp [JValue.beqList, JValue.beq_iff x y, JValue.beqList_iff xs ys]

theorem JValue.beqFields_iff :
    (xs ys : List (JValue × JValue)) → (JValue.beqFields xs ys = true ↔ xs = ys)
  | [], [] => by simp [JValue.beqFields]
  | [], _ :: _ => by simp [JValue.beqFields]
  | (_, _) :: _, [] => by simp [JValue.beqFields]
  | (k, v) :: xs, (k2, v2) :: ys => by
      simp [JValue.beqFields, JValue.beq_iff k k2, JValue.beq_iff v v2,
        JValue.beqFields_iff xs ys, Prod.ext_iff]

end

instance : DecidableEq JValue := fun a b =>
  decidable_of_iff (JValue.beq a b = true) (JValue.beq_iff a b)

/-- A Python dictionary: an insertion-ordered association list with unique
keys.  All dictionaries built by the embedded code keep their keys unique. -/
abbrev Dict := List (JValue × JValue)

/-- Python exceptions raised by the embedded code. -/
inductive PyErr where
  | keyError (k : JValue) : PyErr
  | typeError : PyErr
  | attributeError : PyErr
  | invalidStateError : PyErr
deriving DecidableEq

/-- Dictionary lookup, as in Python `d.get(k)`. -/
def dictGet : Dict → JValue → Option JValue
  | [], _ => none
  | p :: d, k => if p.1 = k then some p.2 else dictGet d k

/-- Dictionary indexing, as in Python `d[k]`: raises KeyError when the key
is absent. -/
def dictGetE (d : Dict) (k : JValue) : Except PyErr JValue :=
  match dictGet d k with
  | some v => .ok v
  | none => .error (.keyError k)

/-- Dictionary assignment, as in Python `d[k] = v`: replaces the value at
an existing key in place, otherwise appends the new pair. -/
def dictSet : Dict → JValue → JValue → Dict
  | [], k, v => [(k, v)]
  | p :: d, k, v => if p.1 = k then (k, v) :: d else p :: dictSet d k v

/-- Dictionary key removal, as in Python `d.pop(k)` (the returned value is
ignored by the embedded code). -/
def dictRemove : Dict → JValue → Dict
  | [], _ => []
  | p :: d, k => if p.1 = k then dictRemove d k else p :: dictRemove d k

/-- The keys of a dictionary, in insertion order. -/
def dictKeys (d : Dict) : List JValue :=
  d.map (fun p => p.1)

/-- Membership of a key, as in Python `k in d`. -/
def dictHasKey (d : Dict) (k : JValue) : Bool :=
  (dictGet d k).isSome

theorem dictGet_dictSet_self (d : Dict) (k v : JValue) :
    dictGet (dictSet d k v) k = some v := by
  induction d with
  | nil => simp [dictSet, dictGet]
  | cons p d ih =>
    by_cases h : p.1 = k
    · simp [dictSet, dictGet, h]
    · simp [dictSet, dictGet, h, ih]

theorem dictGet_dictSet_other (d : Dict) (k k' v : JValue) (hne : k' ≠ k) :
    dictGet (dictSet d k v) k' = dictGet d k' := by
  have hks : ¬ k = k' := fun hc => hne hc.symm
  induction d with
  | nil => simp [dictSet, dictGet, hks]
  | cons p d ih =>
    by_cases h : p.1 = k
    · have hp : ¬ p.1 = k' := fun hc => hks (hc.symm.trans h).symm
      simp [dictSet, dictGet, h, hp, hks]
    · by_cases h' : p.1 = k'
      · simp [dictSet, dictGet, h, h', hne]
      · simp [dictSet, dictGet, h, h', ih]

theorem dictKeys_dictSet_of_mem (d : Dict) (k v : JValue)
    (h : (dictGet d k).isSome) :
    dictKeys (dictSet d k v) = dictKeys d := by
  induction d with
  | nil => simp [dictGet] at h
  | cons p d ih =>
    by_cases hp : p.1 = k
    · simp [dictSet, dictKeys, hp]
    · simp only [dictGet, hp, if_neg, ite_false] at h
      simp [dictSet, dictKeys, hp] at ih ⊢
      exact ih h

theorem dictGet_dictRemove_self (d : Dict) (k : JValue) :
    dictGet (dictRemove d k) k = none := by
  induction d with
  | nil => simp [dictRemove, dictGet]
  | cons p d ih =>
    by_cases h : p.1 = k
    · simp [dictRemove, h, ih]
    · simp [dictRemove, dictGet, h, ih]

theorem dictGet_dictRemove_other (d : Dict) (k k' : JValue) (hne : k' ≠ k) :
    dictGet (dictRemove d k) k' = dictGet d k' := by
  have hks : ¬ k = k' := fun hc => hne hc.symm
  induction d with
  | nil => simp [dictRemove]
  | cons p d ih =>
    by_cases h : p.1 = k
    · have hp : ¬ p.1 = k' := fun hc => hks (hc.symm.trans h).symm
      simp [dictRemove, dictGet, h, hp, hks, ih]
    · by_cases h' : p.1 = k'
      · simp [dictRemove, dictGet, h, h', hne]
      · simp [dictRemove, dictGet, h, h', ih]

/-- An event, as defined in event.py: a type tag and a data dictionary. -/
structure Event where
  type : String
  data : Dict

/-- A callback registered on an event bus.  Python callbacks are arbitrary
closures; the embedding models the shapes a client can register: a plain
callback (identified by a number), a callback whose body also calls the
unsubscribe capability of some registration (identified by the number of
the registration it removes), and the wrapper that once creates, which
unsubscribes itself before delegating. -/
inductive Callback where
  | record (i : Nat) : Callback
  | recordUnsub (i : Nat) (target : Nat) : Callback
  | once (i : Nat) : Callback
deriving DecidableEq

/-- The identity of a callback, standing in for Python object identity. -/
def Callback.cbId : Callback → Nat
  | .record i => i
  | .recordUnsub i _ => i
  | .once i => i

/-- Listener registry lookup, as in Python `self._listeners.get(name)`. -/
def lookupListeners : List (String × List Callback) → String → Option (List Callback)
  | [], _ => none
  | p :: ls, n => if p.1 = n then some p.2 else lookupListeners ls n

/-- Listener registry update: replace the list stored at a name, or append
a fresh entry (Python mutates the dictionary entry in place). -/
def setListeners : List (String × List Callback) → String → List Callback →
    List (String × List Callback)
  | [], n, cbs => [(n, cbs)]
  | p :: ls, n, cbs => if p.1 = n then (n, cbs) :: ls else p :: setListeners ls n cbs

/-- Removal of the first occurrence of a callback, as in Python
`listeners.remove(callback)` guarded by `if callback in listeners`. -/
def removeFirstCb : List Callback → Callback → List Callback
  | [], _ => []
  | c :: cs, cb => if c = cb then cs else c :: removeFirstCb cs cb

/-- Removal by callback identity, used when a callback running inside the
dispatch loop calls an unsubscribe capability: the capability removes the
exact callback object it was created for. -/
def removeFirstById : List Callback → Nat → List Callback
  | [], _ => []
  | c :: cs, t => if c.cbId = t then cs else c :: removeFirstById cs t

/-- The state of EventBase from event.py: the `_listeners` dictionary, plus
two observation traces that record what the callbacks and emit calls did
(`callLog`: each callback invocation with its argument; `emitTrace`: each
call of emit with its arguments). -/
structure EventBase where
  listeners : List (String × List Callback)
  callLog : List (Nat × Dict)
  emitTrace : List (String × Dict)
deriving DecidableEq

/-- A fresh event base, as built by `EventBase.__init__`. -/
def EventBase.init : EventBase :=
  { listeners := [], callLog := [], emitTrace := [] }

/-- `EventBase.on`: `self._listeners.setdefault(event_name, []).append(callback)`. -/
def EventBase.on (bus : EventBase) (name : String) (cb : Callback) : EventBase :=
  let cur := (lookupListeners bus.listeners name).getD []
  { bus with listeners := setListeners bus.listeners name (cur ++ [cb]) }

/-- The unsubscribe capability returned by `EventBase.on`: removes the first
occurrence of the callback from the listener list it was registered in, and
is a no-op when the callback is no longer there. -/
def EventBase.unsubscribe (bus : EventBase) (name : String) (cb : Callback) : EventBase :=
  match lookupListeners bus.listeners name with
  | none => bus
  | some cur => { bus with listeners := setListeners bus.listeners name (removeFirstCb cur cb) }

/-- `EventBase.once`: registers the wrapper that unsubscribes itself and then
invokes the wrapped callback. -/
def EventBase.once (bus : EventBase) (name : String) (i : Nat) : EventBase :=
  bus.on name (.once i)

/-- One callback invocation inside the dispatch loop of emit: the callback
records its invocation in the log and, for the unsubscribing shapes, removes
a registration from the live listener list. -/
def runCallback (data : Dict) (cb : Callback) (ls : List Callback)
    (log : List (Nat × Dict)) : List Callback × List (Nat × Dict) :=
  match cb with
  | .record i => (ls, log ++ [(i, data)])
  | .recordUnsub i t => (removeFirstById ls t, log ++ [(i, data)])
  | .once i => (removeFirstById ls i, log ++ [(i, data)])

/-- The dispatch loop of `EventBase.emit`.  Python iterates the live listener
list by an index-advancing iterator; a callback that unsubscribes during the
iteration mutates that list in place, and the iterator stops as soon as the
index reaches the current length.  Unsubscription only shrinks the list, so
the loop runs at most as many steps as the list initially has elements; the
fuel argument carries that bound to make the recursion structural, and is
provably sufficient at every call site. -/
def emitLoop (data : Dict) : Nat → Nat → List Callback → List (Nat × Dict) →
    List Callback × List (Nat × Dict)
  | 0, _, ls, log => (ls, log)
  | fuel + 1, i, ls, log =>
    if h : i < ls.length then
      let r := runCallback data (ls.get ⟨i, h⟩) ls log
      emitLoop data fuel (i + 1) r.1 r.2
    else (ls, log)

/-- `EventBase.emit`: `for listener in self._listeners.get(event_name, []):
listener(data)`.  When the name has no entry the loop body never runs and
the registry is untouched. -/
def EventBase.emit (bus : EventBase) (name : String) (data : Dict) : EventBase :=
  match lookupListeners bus.listeners name with
  | none => { bus with emitTrace := bus.emitTrace ++ [(name, data)] }
  | some ls =>
    let r := emitLoop data ls.length 0 ls bus.callLog
    { listeners := setListeners bus.listeners name r.1,
      callLog := r.2,
      emitTrace := bus.emitTrace ++ [(name, data)] }

theorem lookupListeners_setListeners_self (ls : List (String × List Callback))
    (n : String) (cbs : List Callback) :
    lookupListeners (setListeners ls n cbs) n = some cbs := by
  induction ls with
  | nil => simp [setListeners, lookupListeners]
  | cons p ls ih =>
    by_cases h : p.1 = n
    · simp [setListeners, lookupListeners, h]
    · simp [setListeners, lookupListeners, h, ih]

theorem setListeners_self_of_lookup (ls : List (String × List Callback))
    (n : String) (cbs : List Callback) (h : lookupListeners ls n = some cbs) :
    setListeners ls n cbs = ls := by
  induction ls with
  | nil => simp [lookupListeners] at h
  | cons p ls ih =>
    by_cases hp : p.1 = n
    · simp only [lookupListeners, hp, if_pos, Option.some.injEq] at h
      have hpn : ((n, cbs) : String × List Callback) = p := by
        rw [← hp, ← h]
      simp [setListeners, hp, hpn]
    · simp only [lookupListeners, hp, ite_false, if_neg] at h
      simp [setListeners, hp, ih h]

/-- When every listener of the list is a plain recording callback, the
dispatch loop leaves the list unchanged and appends one invocation per
listener, in list order. -/
theorem emitLoop_records (data : Dict) (ls : List Callback)
    (hrec : ∀ c ∈ ls, ∃ j, c = Callback.record j) :
    ∀ fuel i log, ls.length - i ≤ fuel →
      emitLoop data fuel i ls log =
        (ls, log ++ (ls.drop i).map (fun c => (c.cbId, data))) := by
  intro fuel
  induction fuel with
  | zero =>
    intro i log hle
    have : ls.length ≤ i := by omega
    simp [emitLoop, List.drop_eq_nil_of_le this]
  | succ fuel ih =>
    intro i log hle
    by_cases h : i < ls.length
    · have hcb := hrec (ls.get ⟨i, h⟩) (ls.get_mem i h)
      obtain ⟨j, hj⟩ := hcb
      rw [emitLoop]
      simp only [h, dif_pos]
      rw [hj]
      simp only [runCallback]
      rw [ih (i + 1) (log ++ [(j, data)]) (by omega)]
      have hdrop : ls.drop i = ls.get ⟨i, h⟩ :: ls.drop (i + 1) :=
        List.drop_eq_getElem_cons h
      rw [hdrop, hj]
      simp [Callback.cbId]
    · rw [emitLoop]
      simp only [h, dif_neg, not_false_iff]
      have : ls.length ≤ i := by omega
      simp [List.drop_eq_nil_of_le this]

/-- Association-list lookup keyed by values, used for the station and
device maps of the Driver (Python dictionaries from serial number to entity
object). -/
def alGet {β : Type} : List (JValue × β) → JValue → Option β
  | [], _ => none
  | p :: d, k => if p.1 = k then some p.2 else alGet d k

/-- Association-list assignment, as in Python `d[k] = v`. -/
def alSet {β : Type} : List (JValue × β) → JValue → β → List (JValue × β)
  | [], k, v => [(k, v)]
  | p :: d, k, v => if p.1 = k then (k, v) :: d else p :: alSet d k v

/-- The keys of an association list, in insertion order. -/
def alKeys {β : Type} (d : List (JValue × β)) : List JValue :=
  d.map (fun p => p.1)

/-- Handler-name derivation used by `EventBase._handle_event_protocol`:
the Python code computes the attribute name handle_ followed by the event
type with spaces replaced by underscores.  Replacement of a single-character
pattern is a character map. -/
def handlerName (t : String) : String :=
  "handle_" ++ String.mk (t.data.map (fun ch => if ch = ' ' then '_' else ch))

/-- `handle_property_changed` shared by Station and Device: assigns
`self._state[event.data["name"]] = event.data["value"]`.  Python evaluates
the right-hand side before the subscript of the target, so a missing value
key raises before a missing name key. -/
def handle_property_changed (bag : Dict) (e : Event) : Except PyErr Dict := do
  let v ← dictGetE e.data (.str "value")
  let n ← dictGetE e.data (.str "name")
  pure (dictSet bag n v)

/-- `Station.receive_event`: delegates to `_handle_event_protocol`, looked
up against the handlers the Station class defines.  handle_connected,
handle_disconnected and handle_guard_mode_changed are empty hooks;
handle_property_changed mutates the property bag; any other derived name
finds no method, which is logged and ignored. -/
def Station.receive_event (bag : Dict) (e : Event) : Except PyErr Dict :=
  if handlerName e.type = "handle_connected" then pure bag
  else if handlerName e.type = "handle_disconnected" then pure bag
  else if handlerName e.type = "handle_guard_mode_changed" then pure bag
  else if handlerName e.type = "handle_property_changed" then
    handle_property_changed bag e
  else pure bag

/-- `Device.receive_event`: as for Station, but the Device class defines
only handle_property_changed. -/
def Device.receive_event (bag : Dict) (e : Event) : Except PyErr Dict :=
  if handlerName e.type = "handle_property_changed" then
    handle_property_changed bag e
  else pure bag

/-- The Driver state: the bootstrap snapshot `_state`, the two entity maps
(serial-number value to entity property bag; the listener registries of the
individual entities are untouched by every embedded operation and elided),
and the event bus of the Driver itself. -/
structure DriverState where
  state : Dict
  stations : List (JValue × Dict)
  devices : List (JValue × Dict)
  bus : EventBase

/-- `Driver._handle_event_protocol`: the Driver class defines no handle_
methods, so the derived attribute lookup never finds one and the call is a
logged no-op for every event type. -/
def Driver.handleEventProtocol (d : DriverState) (_e : Event) : DriverState := d

/-- `Driver.receive_event` (model/driver.py): routes by `event.data["source"]`
to the station map, the device map, or the Driver itself, then re-emits the
event type and data on the Driver bus.  Indexing data without a source key,
or an unknown serial number, raises KeyError before any mutation or
emission. -/
def Driver.receive_event (d : DriverState) (e : Event) : Except PyErr DriverState := do
  let source ← dictGetE e.data (.str "source")
  let d1 ←
    if source = JValue.str "station" then do
      let sn ← dictGetE e.data (.str "serialNumber")
      match alGet d.stations sn with
      | none => throw (.keyError sn)
      | some bag => do
          let bag1 ← Station.receive_event bag e
          pure { d with stations := alSet d.stations sn bag1 }
    else if source = JValue.str "device" then do
      let sn ← dictGetE e.data (.str "serialNumber")
      match alGet d.devices sn with
      | none => throw (.keyError sn)
      | some bag => do
          let bag1 ← Device.receive_event bag e
          pure { d with devices := alSet d.devices sn bag1 }
    else
      pure (Driver.handleEventProtocol d e)
  pure { d1 with bus := d1.bus.emit e.type e.data }

/-- Python subscription of a non-dictionary value raises TypeError. -/
def asObj : JValue → Except PyErr Dict
  | .obj fields => .ok fields
  | _ => .error .typeError

/-- Python iteration of a non-list value raises TypeError. -/
def asArr : JValue → Except PyErr (List JValue)
  | .arr xs => .ok xs
  | _ => .error .typeError

/-- The entity-map construction loop of `Driver.from_state`: for each
snapshot in the list, construct the entity and store it under its
serial_number accessor, which reads the serialNumber key of the snapshot. -/
def buildEntities (acc : List (JValue × Dict)) :
    List JValue → Except PyErr (List (JValue × Dict))
  | [] => .ok acc
  | v :: vs => do
      let bag ← asObj v
      let sn ← dictGetE bag (.str "serialNumber")
      buildEntities (alSet acc sn bag) vs

/-- `Driver.from_state` (model/driver.py): builds the device and station
maps by iterating the snapshot lists under result.state, devices first.
The code calls Device.from_state and Station.from_state factories; those
factory definitions are not among the sources, so, modelled from the spec,
each factory constructs its entity from the snapshot dictionary (the entity
property bag is that dictionary). -/
def Driver.from_state (stateMsg : Dict) : Except PyErr DriverState := do
  let result ← dictGetE stateMsg (.str "result")
  let resultObj ← asObj result
  let stateV ← dictGetE resultObj (.str "state")
  let stateObj ← asObj stateV
  let devicesV ← dictGetE stateObj (.str "devices")
  let deviceSnapshots ← asArr devicesV
  let devices ← buildEntities [] deviceSnapshots
  let stationsV ← dictGetE stateObj (.str "stations")
  let stationSnapshots ← asArr stationsV
  let stations ← buildEntities [] stationSnapshots
  pure { state := stateMsg, stations := stations, devices := devices,
         bus := EventBase.init }

/-- Association-list key removal, as in Python `d.pop(k)`. -/
def alRemove {β : Type} : List (JValue × β) → JValue → List (JValue × β)
  | [], _ => []
  | p :: d, k => if p.1 = k then alRemove d k else p :: alRemove d k

/-- Modelled from the spec: the client-side constants of const.py, which is
not among the sources.  The spec pins the client maximum at 1 (section 8,
concrete scenario: client MAX equal to 1) and accepts a handshake whose
minimum is 0, with missing handshake bounds defaulting to 0, so the
supported client range is taken as the interval from 0 to 1. -/
def MIN_SERVER_SCHEMA_VERSION : Int := 0

/-- Modelled from the spec: see MIN_SERVER_SCHEMA_VERSION. -/
def MAX_SERVER_SCHEMA_VERSION : Int := 1

/-- VersionInfo from model/version.py: the parsed handshake frame. -/
structure VersionInfo where
  driver_version : JValue
  server_version : JValue
  min_schema_version : Int
  max_schema_version : Int
deriving DecidableEq

/-- Reading an optional integer handshake field, as in
`msg.get("minSchemaVersion", 0)`.  A present non-integer value would make
the later comparisons raise; the embedding rejects it at read time. -/
def getIntD (msg : Dict) (k : String) : Except PyErr Int :=
  match dictGet msg (.str k) with
  | none => .ok 0
  | some (.int n) => .ok n
  | some _ => .error .typeError

/-- `VersionInfo.from_message` from model/version.py. -/
def VersionInfo.from_message (msg : Dict) : Except PyErr VersionInfo := do
  let dv ← dictGetE msg (.str "driverVersion")
  let sv ← dictGetE msg (.str "serverVersion")
  let mn ← getIntD msg "minSchemaVersion"
  let mx ← getIntD msg "maxSchemaVersion"
  pure { driver_version := dv, server_version := sv,
         min_schema_version := mn, max_schema_version := mx }

/-- The single-resolution slot a command caller awaits
(`asyncio.Future`). -/
inductive FutureState where
  | pending
  | resolved (result : JValue)
  | failed (messageId : JValue) (errorCode : JValue)
  | cancelled
deriving DecidableEq

/-- `asyncio.Future.cancel`: cancels a pending future; on a future that is
already done it is a no-op. -/
def FutureState.cancel : FutureState → FutureState
  | .pending => .cancelled
  | f => f

/-- The mutable state of WebsocketClient.  clientPresent is whether
`self._client` is set and socketClosed the closed flag of the underlying
socket; the connected property is their conjunction.  `sent` records the
frames passed to `self._client.send_json`.  hasShutdownEvent is whether a
shutdown-complete notification was registered, shutdownSignaled whether it
has been set. -/
structure WSClient where
  clientPresent : Bool
  socketClosed : Bool
  schema_version : Int
  version : Option VersionInfo
  result_futures : List (JValue × FutureState)
  driver : Option DriverState
  sent : List Dict
  hasShutdownEvent : Bool
  shutdownSignaled : Bool

/-- The `connected` property of WebsocketClient. -/
def WSClient.connected (c : WSClient) : Bool :=
  c.clientPresent && !c.socketClosed

/-- The state `WebsocketClient.__init__` builds: no socket, no driver, no
pending futures, schema version initialised to the client maximum, no
shutdown notification registered. -/
def WSClient.init : WSClient :=
  { clientPresent := false
    socketClosed := false
    schema_version := MAX_SERVER_SCHEMA_VERSION
    version := none
    result_futures := []
    driver := none
    sent := []
    hasShutdownEvent := false
    shutdownSignaled := false }

/-- Outcome of the handshake portion of `async_connect`. -/
inductive ConnectOutcome where
  | ok
  | invalidServerVersion
  | pyError (e : PyErr)
deriving DecidableEq

/-- The handshake portion of `async_connect` (client.py lines 167-191): the
first received frame is parsed as VersionInfo and stored; if the advertised
minimum exceeds the client minimum, or the advertised maximum is below the
client maximum, the socket is closed and InvalidServerVersion raised.
Otherwise the downgrade branch of line 182 stores the server maximum as the
negotiated schema when it is below the client maximum - a condition the
preceding check has already excluded, so the branch is dead code kept here
as written and the schema version keeps its initial value, the client
maximum. -/
def async_connect_handshake (c : WSClient) (msg : Dict) : WSClient × ConnectOutcome :=
  match VersionInfo.from_message msg with
  | .error e => (c, .pyError e)
  | .ok v =>
      let c1 := { c with version := some v }
      if MIN_SERVER_SCHEMA_VERSION < v.min_schema_version ∨
          v.max_schema_version < MAX_SERVER_SCHEMA_VERSION then
        ({ c1 with socketClosed := true }, .invalidServerVersion)
      else
        (if v.max_schema_version < MAX_SERVER_SCHEMA_VERSION then
          { c1 with schema_version := v.max_schema_version }
        else c1, .ok)

/-- Truthiness of a decoded JSON value, as in `if payload["success"]:`. -/
def JValue.truthy : JValue → Bool
  | .null => false
  | .bool b => b
  | .int n => n != 0
  | .str s => s != ""
  | .arr xs => !xs.isEmpty
  | .obj fields => !fields.isEmpty

/-- A text value where the embedding needs a Lean string (the event type
tag). -/
def asStr : JValue → Except PyErr String
  | .str s => .ok s
  | _ => .error .typeError

/-- `WebsocketClient._parse_response_payload` (client.py lines 68-93).
A result frame resolves or fails the pending future registered under the
frame messageId, and is discarded when no future is registered; resolving a
future that is no longer pending raises InvalidStateError.  An event frame
is handed to the Driver; any other frame type is logged and ignored. -/
def parse_response_payload (c : WSClient) (payload : Dict) : Except PyErr WSClient := do
  let t ← dictGetE payload (.str "type")
  if t = JValue.str "result" then do
    let mid ← dictGetE payload (.str "messageId")
    match alGet c.result_futures mid with
    | none => pure c
    | some fut => do
        let succ ← dictGetE payload (.str "success")
        if succ.truthy then do
          let r ← dictGetE payload (.str "result")
          match fut with
          | .pending =>
              pure { c with result_futures :=
                       alSet c.result_futures mid (.resolved r) }
          | _ => throw .invalidStateError
        else do
          let ec ← dictGetE payload (.str "errorCode")
          match fut with
          | .pending =>
              pure { c with result_futures :=
                       alSet c.result_futures mid (.failed mid ec) }
          | _ => throw .invalidStateError
  else if t = JValue.str "event" then do
    let ev ← dictGetE payload (.str "event")
    let evObj ← asObj ev
    let etype ← dictGetE evObj (.str "event")
    let etypeStr ← asStr etype
    match c.driver with
    | none => throw .attributeError
    | some d => do
        let d1 ← Driver.receive_event d { type := etypeStr, data := evObj }
        pure { c with driver := some d1 }
  else
    pure c

/-- The guard `require_schema and require_schema > self.schema_version`:
None and 0 are falsy in Python, so only a nonzero requirement that exceeds
the negotiated schema triggers the error. -/
def requireSchemaBlocks : Option Int → Int → Bool
  | none, _ => false
  | some n, sv => if n = 0 then false else decide (sv < n)

/-- Outcome of the send phase of a command call. -/
inductive SendOutcome where
  | invalidServerVersion
  | notConnected
  | frameSent (messageId : JValue)
deriving DecidableEq

/-- `async_send_command` up to its await of the result future (client.py
lines 254-268): the schema guard, the correlation identifier (uuid4().hex,
passed in as mid), registration of the pending future, and the send.
Registration happens before the connectivity check inside _async_send_json,
so a send failure leaves the future registered. -/
def async_send_command_send (c : WSClient) (payload : Dict)
    (require_schema : Option Int) (mid : String) : WSClient × SendOutcome :=
  if requireSchemaBlocks require_schema c.schema_version then
    (c, .invalidServerVersion)
  else
    let payload1 := dictSet payload (.str "messageId") (.str mid)
    let c1 := { c with result_futures :=
                  alSet c.result_futures (.str mid) .pending }
    if c1.connected then
      ({ c1 with sent := c1.sent ++ [payload1] }, .frameSent (.str mid))
    else
      (c1, .notConnected)

/-- The completion of `async_send_command` (client.py lines 269-272): for
every outcome of the awaited future - result, FailedCommand, cancellation -
the finally block pops the registered entry from the correlation map. -/
def async_send_command_complete (c : WSClient) (mid : String) : WSClient :=
  { c with result_futures := alRemove c.result_futures (.str mid) }

/-- `async_send_command_no_wait` (client.py lines 274-286): the same schema
guard and identifier assignment, but no future is registered and no result
awaited. -/
def async_send_command_no_wait (c : WSClient) (payload : Dict)
    (require_schema : Option Int) (mid : String) : WSClient × SendOutcome :=
  if requireSchemaBlocks require_schema c.schema_version then
    (c, .invalidServerVersion)
  else
    let payload1 := dictSet payload (.str "messageId") (.str mid)
    if c.connected then
      ({ c with sent := c.sent ++ [payload1] }, .frameSent (.str mid))
    else
      (c, .notConnected)

/-- The ways the body of `async_listen` terminates. -/
inductive ListenTermination where
  | connectionClosed
  | cancelled
  | fatal (e : PyErr)
deriving DecidableEq

/-- The finally block of `async_listen` (client.py lines 242-252): cancel
every future in the correlation map, close the socket if it is still open,
and signal the shutdown notification when one was registered. -/
def async_listen_cleanup (c : WSClient) : WSClient :=
  { c with
    result_futures := c.result_futures.map (fun p => (p.1, p.2.cancel)),
    socketClosed := true,
    shutdownSignaled := c.shutdownSignaled || c.hasShutdownEvent }

/-- Exit of `async_listen`: Python runs the finally block for every way the
body terminates; the cause then determines what the caller observes
(ConnectionClosed is swallowed by the except clause, cancellation and fatal
errors propagate). -/
def async_listen_exit (c : WSClient) (cause : ListenTermination) :
    WSClient × Option ListenTermination :=
  (async_listen_cleanup c,
   match cause with
   | .connectionClosed => none
   | t => some t)

/-- AlarmMode of eufy_security_ws/model/station.py. -/
inductive AlarmMode where
  | AWAY | HOME | DISARMED | UNKNOWN
deriving DecidableEq

/-- Enum lookup AlarmMode(n): the named member with the given integer
value, if any. -/
def AlarmMode.ofValue : Int → Option AlarmMode
  | 0 => some .AWAY
  | 1 => some .HOME
  | 63 => some .DISARMED
  | 99 => some .UNKNOWN
  | _ => none

/-- GuardMode of eufy_security_ws/model/station.py. -/
inductive GuardMode where
  | AWAY | HOME | SCHEDULE | CUSTOM1 | CUSTOM2 | CUSTOM3 | GEO | DISARMED | UNKNOWN
deriving DecidableEq

/-- Enum lookup GuardMode(n): the named member with the given integer
value, if any. -/
def GuardMode.ofValue : Int → Option GuardMode
  | 0 => some .AWAY
  | 1 => some .HOME
  | 2 => some .SCHEDULE
  | 3 => some .CUSTOM1
  | 4 => some .CUSTOM2
  | 5 => some .CUSTOM3
  | 47 => some .GEO
  | 63 => some .DISARMED
  | 99 => some .UNKNOWN
  | _ => none

/-- `Station.alarm_mode` of the eufy_security_ws package: AlarmMode of the
currentMode property, with the ValueError of an unrecognized code caught
and mapped to UNKNOWN.  A boolean property participates through Python
numeric equality of bool and int; unhashable container values would raise
TypeError from inside the enum lookup, which the except clause does not
catch. -/
def WS.Station.alarm_mode (bag : Dict) : Except PyErr AlarmMode := do
  let v ← dictGetE bag (.str "currentMode")
  match v with
  | .int n => pure ((AlarmMode.ofValue n).getD .UNKNOWN)
  | .bool b => pure ((AlarmMode.ofValue (if b then 1 else 0)).getD .UNKNOWN)
  | .str _ => pure .UNKNOWN
  | .null => pure .UNKNOWN
  | .arr _ => throw .typeError
  | .obj _ => throw .typeError

/-- `Station.guard_mode` of the eufy_security_ws package: GuardMode of the
guardMode property with the same fallback as alarm_mode. -/
def WS.Station.guard_mode (bag : Dict) : Except PyErr GuardMode := do
  let v ← dictGetE bag (.str "guardMode")
  match v with
  | .int n => pure ((GuardMode.ofValue n).getD .UNKNOWN)
  | .bool b => pure ((GuardMode.ofValue (if b then 1 else 0)).getD .UNKNOWN)
  | .str _ => pure .UNKNOWN
  | .null => pure .UNKNOWN
  | .arr _ => throw .typeError
  | .obj _ => throw .typeError

/-- `Station.alarm_mode` of the eufy_security_ws_python package: returns the
stored currentMode value unchanged. -/
def Station.alarm_mode (bag : Dict) : Except PyErr JValue :=
  dictGetE bag (.str "currentMode")

/-- `Station.guard_mode` of the eufy_security_ws_python package: returns the
stored guardMode value unchanged. -/
def Station.guard_mode (bag : Dict) : Except PyErr JValue :=
  dictGetE bag (.str "guardMode")

theorem alGet_alSet_self {β : Type} (d : List (JValue × β)) (k : JValue) (v : β) :
    alGet (alSet d k v) k = some v := by
  induction d with
  | nil => simp [alSet, alGet]
  | cons p d ih =>
    by_cases h : p.1 = k
    · simp [alSet, alGet, h]
    · simp [alSet, alGet, h, ih]

theorem alGet_alSet_other {β : Type} (d : List (JValue × β)) (k k' : JValue) (v : β)
    (hne : k' ≠ k) : alGet (alSet d k v) k' = alGet d k' := by
  have hks : ¬ k = k' := fun hc => hne hc.symm
  induction d with
  | nil => simp [alSet, alGet, hks]
  | cons p d ih =>
    by_cases h : p.1 = k
    · have hp : ¬ p.1 = k' := fun hc => hks (hc.symm.trans h).symm
      simp [alSet, alGet, h, hp, hks]
    · by_cases h' : p.1 = k'
      · simp [alSet, alGet, h, h', hne]
      · simp [alSet, alGet, h, h', ih]

theorem alKeys_alSet_of_mem {β : Type} (d : List (JValue × β)) (k : JValue) (v : β)
    (h : (alGet d k).isSome) : alKeys (alSet d k v) = alKeys d := by
  induction d with
  | nil => simp [alGet] at h
  | cons p d ih =>
    by_cases hp : p.1 = k
    · simp [alSet, alKeys, hp]
    · simp only [alGet, hp, if_neg, ite_false] at h
      simp [alSet, alKeys, hp] at ih ⊢
      exact ih h

theorem alGet_alRemove_self {β : Type} (d : List (JValue × β)) (k : JValue) :
    alGet (alRemove d k) k = none := by
  induction d with
  | nil => simp [alRemove, alGet]
  | cons p d ih =>
    by_cases h : p.1 = k
    · simp [alRemove, h, ih]
    · simp [alRemove, alGet, h, ih]

theorem alGet_mapVals {β γ : Type} (f : β → γ) (d : List (JValue × β)) (k : JValue) :
    alGet (d.map (fun p => (p.1, f p.2))) k = (alGet d k).map f := by
  induction d with
  | nil => simp [alGet]
  | cons p d ih =>
    by_cases h : p.1 = k
    · simp [alGet, h]
    · simp [alGet, h, ih]

theorem emitTrace_emit (bus : EventBase) (name : String) (data : Dict) :
    (bus.emit name data).emitTrace = bus.emitTrace ++ [(name, data)] := by
  unfold EventBase.emit
  cases lookupListeners bus.listeners name <;> simp

theorem handlerName_property_changed :
    handlerName "property changed" = "handle_property_changed" := rfl

theorem handlerName_guard_mode_changed :
    handlerName "guard mode changed" = "handle_guard_mode_changed" := rfl

/-- Property bag of a station whose two mode properties hold the integer 7,
which is not the value of any named mode member. -/
def modeBag7 : Dict := [(.str "currentMode", .int 7), (.str "guardMode", .int 7)]

/-- Property bag of a station holding recognized mode codes. -/
def modeBagKnown : Dict := [(.str "currentMode", .int 63), (.str "guardMode", .int 47)]

/-- Claim C10, counterexample: in the eufy_security_ws_python package the
alarm_mode and guard_mode accessors return the stored integer unchanged;
at the unrecognized code 7 the returned value corresponds to no named mode
member, so the accessors do not yield the explicit UNKNOWN state the claim
requires for unrecognized integers. -/
theorem C10_counterexample :
    Station.alarm_mode modeBag7 = .ok (.int 7) ∧
    AlarmMode.ofValue 7 = none ∧
    Station.guard_mode modeBag7 = .ok (.int 7) ∧
    GuardMode.ofValue 7 = none :=
  ⟨rfl, rfl, rfl, rfl⟩

/-- Claim C10 (amended): in the eufy_security_ws package, alarm_mode and
guard_mode map the stored integer to the named member with that value,
fall back to the explicit UNKNOWN member on any unrecognized integer, and
never raise when the key is present; the eufy_security_ws_python package
accessors instead return the stored integer unchanged. -/
theorem C10_modes (bag : Dict) (na ng : Int)
    (hcm : dictGet bag (.str "currentMode") = some (.int na))
    (hgm : dictGet bag (.str "guardMode") = some (.int ng)) :
    WS.Station.alarm_mode bag = .ok ((AlarmMode.ofValue na).getD .UNKNOWN) ∧
    WS.Station.guard_mode bag = .ok ((GuardMode.ofValue ng).getD .UNKNOWN) ∧
    Station.alarm_mode bag = .ok (.int na) ∧
    Station.guard_mode bag = .ok (.int ng) := by
  refine ⟨?_, ?_, ?_, ?_⟩
  · simp [WS.Station.alarm_mode, dictGetE, hcm, bind, Except.bind, pure, Except.pure]
  · simp [WS.Station.guard_mode, dictGetE, hgm, bind, Except.bind, pure, Except.pure]
  · simp [Station.alarm_mode, dictGetE, hcm]
  · simp [Station.guard_mode, dictGetE, hgm]

/-- Witness for C10_modes at a bag holding the codes 63 and 47. -/
theorem C10_modes_witness :
    WS.Station.alarm_mode modeBagKnown = .ok AlarmMode.DISARMED ∧
    WS.Station.guard_mode modeBagKnown = .ok GuardMode.GEO :=
  ⟨(C10_modes modeBagKnown 63 47 rfl rfl).1,
   (C10_modes modeBagKnown 63 47 rfl rfl).2.1⟩

/-- The compatibility predicate asserted by the claim, stated from the
claim wording for comparison with the code: the advertised schema range
overlaps the client supported range. -/
def specRangeOverlap (v : VersionInfo) : Prop :=
  v.min_schema_version ≤ MAX_SERVER_SCHEMA_VERSION ∧
  MIN_SERVER_SCHEMA_VERSION ≤ v.max_schema_version

instance specRangeOverlap.decidable (v : VersionInfo) : Decidable (specRangeOverlap v) := by
  unfold specRangeOverlap
  exact instDecidableAnd

/-- A handshake advertising the schema range from 0 to 0: it overlaps the
client supported range but its maximum is below the client maximum. -/
def handshakeMax0 : Dict :=
  [(.str "driverVersion", .str "0.8.2"), (.str "serverVersion", .str "0.1.2"),
   (.str "minSchemaVersion", .int 0), (.str "maxSchemaVersion", .int 0)]

/-- The version descriptor handshakeMax0 parses to. -/
def versionMax0 : VersionInfo :=
  { driver_version := .str "0.8.2", server_version := .str "0.1.2",
    min_schema_version := 0, max_schema_version := 0 }

/-- Claim C1, counterexample: the handshake advertising the range from 0
to 0 overlaps the client range, yet async_connect raises
InvalidServerVersion and closes the socket, because the code requires the
advertised maximum to reach the client maximum rather than the ranges to
overlap (the repository test for maxSchemaVersion 0 asserts exactly this
raise). -/
theorem C1_counterexample :
    VersionInfo.from_message handshakeMax0 = .ok versionMax0 ∧
    specRangeOverlap versionMax0 ∧
    (async_connect_handshake WSClient.init handshakeMax0).2 =
      ConnectOutcome.invalidServerVersion ∧
    (async_connect_handshake WSClient.init handshakeMax0).1.socketClosed = true :=
  ⟨rfl, by decide, rfl, rfl⟩

/-- Claim C1 (amended): async_connect succeeds exactly when the advertised
range contains the client range (server minimum at most the client minimum
and server maximum at least the client maximum); it then pins the schema
version to the client maximum, which equals the minimum of the client
maximum and the server maximum.  Every other handshake - including
overlapping ranges whose server maximum is below the client maximum -
raises InvalidServerVersion and closes the socket. -/
theorem C1_handshake (c : WSClient) (msg : Dict) (v : VersionInfo)
    (hv : VersionInfo.from_message msg = .ok v)
    (hc : c.schema_version = MAX_SERVER_SCHEMA_VERSION) :
    (v.min_schema_version ≤ MIN_SERVER_SCHEMA_VERSION ∧
        MAX_SERVER_SCHEMA_VERSION ≤ v.max_schema_version →
      (async_connect_handshake c msg).2 = ConnectOutcome.ok ∧
      (async_connect_handshake c msg).1.schema_version =
        min MAX_SERVER_SCHEMA_VERSION v.max_schema_version) ∧
    (¬ (v.min_schema_version ≤ MIN_SERVER_SCHEMA_VERSION ∧
        MAX_SERVER_SCHEMA_VERSION ≤ v.max_schema_version) →
      (async_connect_handshake c msg).2 = ConnectOutcome.invalidServerVersion ∧
      (async_connect_handshake c msg).1.socketClosed = true) := by
  unfold async_connect_handshake
  rw [hv]
  constructor
  · rintro ⟨h1, h2⟩
    have hna : ¬ MIN_SERVER_SCHEMA_VERSION < v.min_schema_version := by omega
    have hnb : ¬ v.max_schema_version < MAX_SERVER_SCHEMA_VERSION := by omega
    rw [min_eq_left h2]
    simp [hna, hnb, hc]
  · intro hcont
    have hcond : MIN_SERVER_SCHEMA_VERSION < v.min_schema_version ∨
        v.max_schema_version < MAX_SERVER_SCHEMA_VERSION := by omega
    simp [hcond]

/-- A handshake advertising the schema range from 0 to 1, the concrete
scenario of the spec. -/
def handshake01 : Dict :=
  [(.str "driverVersion", .str "0.8.2"), (.str "serverVersion", .str "0.1.2"),
   (.str "minSchemaVersion", .int 0), (.str "maxSchemaVersion", .int 1)]

/-- Witness for C1_handshake at the spec scenario handshake: the connect
succeeds and negotiates schema 1. -/
theorem C1_handshake_witness :
    (async_connect_handshake WSClient.init handshake01).2 = ConnectOutcome.ok ∧
    (async_connect_handshake WSClient.init handshake01).1.schema_version =
      min MAX_SERVER_SCHEMA_VERSION 1 :=
  (C1_handshake WSClient.init handshake01
    { driver_version := .str "0.8.2", server_version := .str "0.1.2",
      min_schema_version := 0, max_schema_version := 1 }
    rfl rfl).1 (by decide)

/-- Claim C6: a command whose required schema strictly exceeds the
negotiated schema version (necessarily nonnegative in every reachable
session state) makes both async_send_command and async_send_command_no_wait
fail with InvalidServerVersion, with the client state - in particular the
sent-frame list and the pending-command map - unchanged. -/
theorem C6_schema_guard (c : WSClient) (payload : Dict) (n : Int) (mid : String)
    (hnn : 0 ≤ c.schema_version) (hgt : c.schema_version < n) :
    async_send_command_send c payload (some n) mid =
      (c, SendOutcome.invalidServerVersion) ∧
    async_send_command_no_wait c payload (some n) mid =
      (c, SendOutcome.invalidServerVersion) := by
  have hn0 : ¬ n = 0 := by omega
  have hb : requireSchemaBlocks (some n) c.schema_version = true := by
    simp [requireSchemaBlocks, hn0, hgt]
  constructor
  · simp [async_send_command_send, hb]
  · simp [async_send_command_no_wait, hb]

/-- Witness for C6_schema_guard on a fresh client (negotiated schema 1)
and required schema 2. -/
theorem C6_schema_guard_witness :
    async_send_command_send WSClient.init [] (some 2) "m1" =
      (WSClient.init, SendOutcome.invalidServerVersion) ∧
    async_send_command_no_wait WSClient.init [] (some 2) "m1" =
      (WSClient.init, SendOutcome.invalidServerVersion) :=
  C6_schema_guard WSClient.init [] 2 "m1" (by decide) (by decide)

/-- Claim C8, counterexample: on a client that is not connected,
async_send_command registers the pending future and then raises
NotConnectedError from the send; the call completes with the exception
while the entry for its correlation identifier is still in the map,
contradicting the claim that no entry remains for any outcome. -/
theorem C8_counterexample :
    (async_send_command_send WSClient.init [] none "abcd").2 =
      SendOutcome.notConnected ∧
    alGet (async_send_command_send WSClient.init [] none "abcd").1.result_futures
        (.str "abcd") = some FutureState.pending :=
  ⟨rfl, rfl⟩

/-- Claim C8 (amended): when the frame is sent and the caller awaits the
future, the finally block removes the registered entry whatever the outcome
of the await (result, FailedCommand, cancellation), so no entry for the
messageId remains; but when the send itself raises NotConnectedError the
already-registered entry stays in the correlation map. -/
theorem C8_deregister (c : WSClient) (payload : Dict) (rs : Option Int) (mid : String) :
    ((async_send_command_send c payload rs mid).2 = SendOutcome.frameSent (.str mid) →
      alGet (async_send_command_complete
              (async_send_command_send c payload rs mid).1 mid).result_futures
          (.str mid) = none) ∧
    ((async_send_command_send c payload rs mid).2 = SendOutcome.notConnected →
      alGet (async_send_command_send c payload rs mid).1.result_futures (.str mid) =
        some FutureState.pending) := by
  unfold async_send_command_send async_send_command_complete
  by_cases hb : requireSchemaBlocks rs c.schema_version
  · simp [hb]
  · by_cases hcon : WSClient.connected
        { c with result_futures := alSet c.result_futures (.str mid) .pending }
    · simp [hb, hcon, alGet_alRemove_self]
    · simp [hb, hcon, alGet_alSet_self]

/-- A client whose socket is present and open, as after a successful
connect. -/
def connectedClient : WSClient := { WSClient.init with clientPresent := true }

/-- Witness for C8_deregister: on a connected client the sent command has
no correlation entry left after completion. -/
theorem C8_deregister_witness :
    alGet (async_send_command_complete
            (async_send_command_send connectedClient [] none "abcd").1
            "abcd").result_futures (.str "abcd") = none :=
  (C8_deregister connectedClient [] none "abcd").1 rfl

/-- Claim C2: a result frame whose messageId matches a pending command
resolves the awaiting caller with exactly the frame result payload when
success is true, and fails it with FailedCommand carrying the frame
errorCode and the correlation id when success is false; in both cases every
other entry of the correlation map is untouched. -/
theorem C2_roundtrip (c : WSClient) (mid : JValue)
    (hfut : alGet c.result_futures mid = some FutureState.pending) :
    (∀ payload r,
      dictGet payload (.str "type") = some (.str "result") →
      dictGet payload (.str "messageId") = some mid →
      dictGet payload (.str "success") = some (.bool true) →
      dictGet payload (.str "result") = some r →
      ∃ c1, parse_response_payload c payload = .ok c1 ∧
        alGet c1.result_futures mid = some (.resolved r) ∧
        (∀ k, k ≠ mid → alGet c1.result_futures k = alGet c.result_futures k) ∧
        c1.driver = c.driver ∧ c1.sent = c.sent) ∧
    (∀ payload ec,
      dictGet payload (.str "type") = some (.str "result") →
      dictGet payload (.str "messageId") = some mid →
      dictGet payload (.str "success") = some (.bool false) →
      dictGet payload (.str "errorCode") = some ec →
      ∃ c1, parse_response_payload c payload = .ok c1 ∧
        alGet c1.result_futures mid = some (.failed mid ec) ∧
        (∀ k, k ≠ mid → alGet c1.result_futures k = alGet c.result_futures k) ∧
        c1.driver = c.driver ∧ c1.sent = c.sent) := by
  constructor
  · intro payload r htype hmid hsucc hres
    refine ⟨{ c with result_futures := alSet c.result_futures mid (.resolved r) },
      ?_, alGet_alSet_self c.result_futures mid (.resolved r), ?_, rfl, rfl⟩
    · simp [parse_response_payload, dictGetE, htype, hmid, hsucc, hres, hfut,
        JValue.truthy, bind, Except.bind, pure, Except.pure]
    · intro k hk
      exact alGet_alSet_other c.result_futures mid k (.resolved r) hk
  · intro payload ec htype hmid hsucc hec
    refine ⟨{ c with result_futures := alSet c.result_futures mid (.failed mid ec) },
      ?_, alGet_alSet_self c.result_futures mid (.failed mid ec), ?_, rfl, rfl⟩
    · simp [parse_response_payload, dictGetE, htype, hmid, hsucc, hec, hfut,
        JValue.truthy, bind, Except.bind, pure, Except.pure]
    · intro k hk
      exact alGet_alSet_other c.result_futures mid k (.failed mid ec) hk

/-- A client awaiting one command with correlation id m1. -/
def pendingClient : WSClient :=
  { connectedClient with result_futures := [(.str "m1", .pending)] }

/-- A success result frame for m1. -/
def resultOkFrame : Dict :=
  [(.str "type", .str "result"), (.str "messageId", .str "m1"),
   (.str "success", .bool true), (.str "result", .obj [])]

/-- A failure result frame for m1. -/
def resultFailFrame : Dict :=
  [(.str "type", .str "result"), (.str "messageId", .str "m1"),
   (.str "success", .bool false), (.str "errorCode", .str "unknown_command")]

/-- Witness for C2_roundtrip: the success frame resolves m1 with its result
payload; the failure frame fails m1 with the frame error code. -/
theorem C2_roundtrip_witness :
    (∃ c1, parse_response_payload pendingClient resultOkFrame = .ok c1 ∧
      alGet c1.result_futures (.str "m1") = some (.resolved (.obj []))) ∧
    (∃ c1, parse_response_payload pendingClient resultFailFrame = .ok c1 ∧
      alGet c1.result_futures (.str "m1") =
        some (.failed (.str "m1") (.str "unknown_command"))) := by
  constructor
  · obtain ⟨c1, h1, h2, -, -, -⟩ :=
      (C2_roundtrip pendingClient (.str "m1") rfl).1 resultOkFrame (.obj [])
        rfl rfl rfl rfl
    exact ⟨c1, h1, h2⟩
  · obtain ⟨c1, h1, h2, -, -, -⟩ :=
      (C2_roundtrip pendingClient (.str "m1") rfl).2 resultFailFrame
        (.str "unknown_command") rfl rfl rfl rfl
    exact ⟨c1, h1, h2⟩

/-- Claim C4: whatever terminates the listen loop - swallowed connection
close, cancellation, or a fatal error - the finally block cancels every
still-pending command future (so no pending caller resolves with a value),
leaves the socket closed, and signals the registered shutdown
notification. -/
theorem C4_listen_cleanup (c : WSClient) (cause : ListenTermination) :
    (∀ k, alGet c.result_futures k = some FutureState.pending →
      alGet (async_listen_exit c cause).1.result_futures k =
        some FutureState.cancelled) ∧
    (async_listen_exit c cause).1.socketClosed = true ∧
    (c.hasShutdownEvent = true →
      (async_listen_exit c cause).1.shutdownSignaled = true) := by
  refine ⟨?_, rfl, ?_⟩
  · intro k hk
    show alGet (c.result_futures.map (fun p => (p.1, p.2.cancel))) k = _
    rw [alGet_mapVals, hk]
    rfl
  · intro h
    simp [async_listen_exit, async_listen_cleanup, h]

/-- A listening client with two in-flight commands and a registered
shutdown notification. -/
def listeningClient : WSClient :=
  { connectedClient with
      result_futures := [(.str "m1", .pending), (.str "m2", .pending)],
      hasShutdownEvent := true }

/-- Witness for C4_listen_cleanup: the socket closes while two commands are
pending - both are cancelled, the socket ends closed, and the shutdown
notification is signaled. -/
theorem C4_listen_cleanup_witness :
    alGet (async_listen_exit listeningClient .connectionClosed).1.result_futures
        (.str "m1") = some FutureState.cancelled ∧
    alGet (async_listen_exit listeningClient .connectionClosed).1.result_futures
        (.str "m2") = some FutureState.cancelled ∧
    (async_listen_exit listeningClient .connectionClosed).1.socketClosed = true ∧
    (async_listen_exit listeningClient .connectionClosed).1.shutdownSignaled = true :=
  ⟨(C4_listen_cleanup listeningClient .connectionClosed).1 (.str "m1") rfl,
   (C4_listen_cleanup listeningClient .connectionClosed).1 (.str "m2") rfl,
   (C4_listen_cleanup listeningClient .connectionClosed).2.1,
   (C4_listen_cleanup listeningClient .connectionClosed).2.2 rfl⟩

theorem station_receive_event_property_changed (bag : Dict) (e : Event)
    (htype : e.type = "property changed") :
    Station.receive_event bag e = handle_property_changed bag e := by
  unfold Station.receive_event
  rw [htype]
  rfl

/-- Claim C3: an event frame with source station and a known serial number
is delegated to that station - for the property changed type it sets the
station bag at the event name to the event value - and the Driver then
re-emits the same event type and data on its own bus; an unknown serial
number raises a KeyError lookup failure instead. -/
theorem C3_station_routing :
    (∀ (d : DriverState) (e : Event) (sn n v : JValue) (bag : Dict),
      dictGet e.data (.str "source") = some (.str "station") →
      dictGet e.data (.str "serialNumber") = some sn →
      e.type = "property changed" →
      dictGet e.data (.str "name") = some n →
      dictGet e.data (.str "value") = some v →
      alGet d.stations sn = some bag →
      ∃ d1, Driver.receive_event d e = .ok d1 ∧
        alGet d1.stations sn = some (dictSet bag n v) ∧
        d1.bus.emitTrace = d.bus.emitTrace ++ [(e.type, e.data)] ∧
        d1.devices = d.devices) ∧
    (∀ (d : DriverState) (e : Event) (sn : JValue),
      dictGet e.data (.str "source") = some (.str "station") →
      dictGet e.data (.str "serialNumber") = some sn →
      alGet d.stations sn = none →
      Driver.receive_event d e = .error (.keyError sn)) := by
  constructor
  · intro d e sn n v bag hsrc hsn htype hname hval hst
    have hrecv : Station.receive_event bag e = .ok (dictSet bag n v) := by
      rw [station_receive_event_property_changed bag e htype]
      simp [handle_property_changed, dictGetE, hname, hval,
        bind, Except.bind, pure, Except.pure]
    refine ⟨{ d with
              stations := alSet d.stations sn (dictSet bag n v)
              bus := d.bus.emit e.type e.data }, ?_,
      alGet_alSet_self d.stations sn (dictSet bag n v),
      emitTrace_emit d.bus e.type e.data, rfl⟩
    simp [Driver.receive_event, dictGetE, hsrc, hsn, hst, hrecv,
      bind, Except.bind, pure, Except.pure]
  · intro d e sn hsrc hsn hnone
    simp [Driver.receive_event, dictGetE, hsrc, hsn, hnone,
      bind, Except.bind, pure, Except.pure]

/-- The station S1 property bag of the spec concrete scenario. -/
def stationBagS1 : Dict :=
  [(.str "serialNumber", .str "S1"), (.str "currentMode", .int 2)]

/-- A Driver owning exactly station S1 and no devices. -/
def driverS1 : DriverState :=
  { state := [], stations := [(.str "S1", stationBagS1)], devices := [],
    bus := EventBase.init }

/-- The property changed event of the spec concrete scenario. -/
def eventPropChanged : Event :=
  { type := "property changed",
    data := [(.str "source", .str "station"), (.str "serialNumber", .str "S1"),
             (.str "event", .str "property changed"),
             (.str "name", .str "currentMode"), (.str "value", .int 63)] }

/-- The same event addressed to an unknown station serial number. -/
def eventUnknownStation : Event :=
  { type := "property changed",
    data := [(.str "source", .str "station"), (.str "serialNumber", .str "S2"),
             (.str "event", .str "property changed"),
             (.str "name", .str "currentMode"), (.str "value", .int 63)] }

/-- Witness for C3_station_routing at the spec scenario: station S1 has its
currentMode updated to 63 and the Driver re-emits; the unknown serial S2
raises KeyError. -/
theorem C3_station_routing_witness :
    (∃ d1, Driver.receive_event driverS1 eventPropChanged = .ok d1 ∧
      alGet d1.stations (.str "S1") =
        some (dictSet stationBagS1 (.str "currentMode") (.int 63)) ∧
      d1.bus.emitTrace = driverS1.bus.emitTrace ++
        [(eventPropChanged.type, eventPropChanged.data)]) ∧
    Driver.receive_event driverS1 eventUnknownStation =
      .error (.keyError (.str "S2")) := by
  constructor
  · obtain ⟨d1, h1, h2, h3, -⟩ :=
      C3_station_routing.1 driverS1 eventPropChanged (.str "S1")
        (.str "currentMode") (.int 63) stationBagS1 rfl rfl rfl rfl rfl rfl
    exact ⟨d1, h1, h2, h3⟩
  · exact C3_station_routing.2 driverS1 eventUnknownStation (.str "S2") rfl rfl rfl

/-- Claim C7: no receive_event call changes the key sets of the station and
device maps: successful routing mutates an existing entry in place, and an
unknown serial number raises KeyError instead of creating an entity, so the
key sets stay exactly those built during bootstrap. -/
theorem C7_fixed_keys (d : DriverState) (e : Event) :
    (∀ d1, Driver.receive_event d e = .ok d1 →
      alKeys d1.stations = alKeys d.stations ∧
      alKeys d1.devices = alKeys d.devices) ∧
    (∀ sn, dictGet e.data (.str "source") = some (.str "station") →
      dictGet e.data (.str "serialNumber") = some sn →
      alGet d.stations sn = none →
      Driver.receive_event d e = .error (.keyError sn)) ∧
    (∀ sn, dictGet e.data (.str "source") = some (.str "device") →
      dictGet e.data (.str "serialNumber") = some sn →
      alGet d.devices sn = none →
      Driver.receive_event d e = .error (.keyError sn)) := by
  refine ⟨?_, ?_, ?_⟩
  · intro d1 h
    simp only [Driver.receive_event, dictGetE, bind, Except.bind, pure,
      Except.pure] at h
    cases hsrc : dictGet e.data (.str "source") with
    | none => rw [hsrc] at h; simp at h
    | some s =>
      rw [hsrc] at h
      dsimp only at h
      by_cases hs : s = JValue.str "station"
      · rw [if_pos hs] at h
        cases hsn : dictGet e.data (.str "serialNumber") with
        | none => rw [hsn] at h; simp at h
        | some sn =>
          rw [hsn] at h
          dsimp only at h
          cases hst : alGet d.stations sn with
          | none => rw [hst] at h; simp at h
          | some bag =>
            rw [hst] at h
            dsimp only at h
            cases hrecv : Station.receive_event bag e with
            | error err => rw [hrecv] at h; simp at h
            | ok bag1 =>
              rw [hrecv] at h
              dsimp only at h
              cases h
              constructor
              · exact alKeys_alSet_of_mem d.stations sn bag1 (by rw [hst]; rfl)
              · rfl
      · rw [if_neg hs] at h
        by_cases hdv : s = JValue.str "device"
        · rw [if_pos hdv] at h
          cases hsn : dictGet e.data (.str "serialNumber") with
          | none => rw [hsn] at h; simp at h
          | some sn =>
            rw [hsn] at h
            dsimp only at h
            cases hdev : alGet d.devices sn with
            | none => rw [hdev] at h; simp at h
            | some bag =>
              rw [hdev] at h
              dsimp only at h
              cases hrecv : Device.receive_event bag e with
              | error err => rw [hrecv] at h; simp at h
              | ok bag1 =>
                rw [hrecv] at h
                dsimp only at h
                cases h
                constructor
                · rfl
                · exact alKeys_alSet_of_mem d.devices sn bag1 (by rw [hdev]; rfl)
        · rw [if_neg hdv] at h
          cases h
          exact ⟨rfl, rfl⟩
  · intro sn hsrc hsn hnone
    simp [Driver.receive_event, dictGetE, hsrc, hsn, hnone,
      bind, Except.bind, pure, Except.pure]
  · intro sn hsrc hsn hnone
    simp [Driver.receive_event, dictGetE, hsrc, hsn, hnone,
      bind, Except.bind, pure, Except.pure]

/-- Witness for C7_fixed_keys: the scenario event leaves the key sets of
driverS1 unchanged, and the unknown serial raises. -/
theorem C7_fixed_keys_witness :
    (∃ d1, Driver.receive_event driverS1 eventPropChanged = .ok d1 ∧
      alKeys d1.stations = alKeys driverS1.stations ∧
      alKeys d1.devices = alKeys driverS1.devices) ∧
    Driver.receive_event driverS1 eventUnknownStation =
      .error (.keyError (.str "S2")) := by
  constructor
  · obtain ⟨d1, hd1⟩ : ∃ d1,
        Driver.receive_event driverS1 eventPropChanged = .ok d1 := ⟨_, rfl⟩
    exact ⟨d1, hd1, (C7_fixed_keys driverS1 eventPropChanged).1 d1 hd1⟩
  · exact (C7_fixed_keys driverS1 eventUnknownStation).2.1 (.str "S2") rfl rfl rfl

/-- A bootstrapped Driver with no entities at all. -/
def driverEmpty : DriverState :=
  { state := [], stations := [], devices := [], bus := EventBase.init }

/-- Claim C9, counterexample: an event whose data has no source key makes
receive_event raise KeyError instead of treating the event as
driver-scoped. -/
theorem C9_counterexample :
    Driver.receive_event driverEmpty { type := "connected", data := [] } =
      .error (.keyError (.str "source")) := rfl

/-- Claim C9 (amended): an event whose data has a source key with a value
that is neither station nor device is treated as driver-scoped: the typed
dispatch runs on the Driver itself (a logged no-op for every event type,
never an exception, since the Driver defines no handlers) and the event
type and data are then re-emitted on the Driver bus.  An event with no
source key instead raises KeyError. -/
theorem C9_driver_scoped (d : DriverState) (e : Event) (s : JValue)
    (hs : dictGet e.data (.str "source") = some s)
    (hns : s ≠ .str "station") (hnd : s ≠ .str "device") :
    Driver.receive_event d e = .ok { d with bus := d.bus.emit e.type e.data } ∧
    (d.bus.emit e.type e.data).emitTrace =
      d.bus.emitTrace ++ [(e.type, e.data)] := by
  constructor
  · simp [Driver.receive_event, dictGetE, hs, hns, hnd,
      Driver.handleEventProtocol, bind, Except.bind, pure, Except.pure]
  · exact emitTrace_emit d.bus e.type e.data

/-- An event carrying an unrecognized source tag and an event type no
entity defines a handler for. -/
def eventServerScoped : Event :=
  { type := "mqtt reconnected",
    data := [(.str "source", .str "server"),
             (.str "event", .str "mqtt reconnected")] }

/-- Witness for C9_driver_scoped at a server-scoped event. -/
theorem C9_driver_scoped_witness :
    Driver.receive_event driverEmpty eventServerScoped =
      .ok { driverEmpty with
             bus := driverEmpty.bus.emit eventServerScoped.type
                      eventServerScoped.data } ∧
    (driverEmpty.bus.emit eventServerScoped.type eventServerScoped.data).emitTrace =
      driverEmpty.bus.emitTrace ++
        [(eventServerScoped.type, eventServerScoped.data)] :=
  C9_driver_scoped driverEmpty eventServerScoped (.str "server") rfl
    (by decide) (by decide)

/-- An event bus with two listeners for e: the first unsubscribes itself
while running, the second is a plain recording callback. -/
def busSelfUnsub : EventBase :=
  (EventBase.init.on "e" (.recordUnsub 0 0)).on "e" (.record 1)

/-- Claim C5, counterexample: both callbacks are registered for e when the
emission starts, yet after emit the call log holds only the first: the
dispatch loop iterates the live listener list, so the self-unsubscription
of the first callback shifts the second one onto the already-consumed index
and it is never invoked - not the claimed snapshot iteration with exactly
one invocation per registered callback. -/
theorem C5_counterexample :
    lookupListeners busSelfUnsub.listeners "e" =
      some [.recordUnsub 0 0, .record 1] ∧
    (busSelfUnsub.emit "e" []).callLog = [(0, [])] ∧
    ((1, ([] : Dict)) ∉ (busSelfUnsub.emit "e" []).callLog) :=
  ⟨rfl, rfl, by decide⟩

/-- Claim C5 (amended): provided no callback unsubscribes a listener of the
emitted name during the emission, every callback registered for that name
at the start of emit is invoked exactly once, synchronously, in
subscription order, with the given data, and the listener registry is left
unchanged.  The listener list is iterated live rather than as a snapshot,
so a callback that unsubscribes itself or an earlier listener makes the
loop skip the listener after the current position (the loop itself still
terminates normally rather than crashing). -/
theorem C5_emit_order (bus : EventBase) (name : String) (data : Dict)
    (ls : List Callback)
    (hls : lookupListeners bus.listeners name = some ls)
    (hrec : ∀ cb ∈ ls, ∃ j, cb = Callback.record j) :
    (bus.emit name data).callLog =
      bus.callLog ++ ls.map (fun cb => (cb.cbId, data)) ∧
    (bus.emit name data).listeners = bus.listeners := by
  unfold EventBase.emit
  rw [hls]
  dsimp only
  rw [emitLoop_records data ls hrec ls.length 0 bus.callLog (by omega)]
  constructor
  · simp
  · simp [setListeners_self_of_lookup bus.listeners name ls hls]

/-- An event bus with three plain listeners subscribed in order. -/
def busThree : EventBase :=
  ((EventBase.init.on "e" (.record 0)).on "e" (.record 1)).on "e" (.record 2)

/-- Witness for C5_emit_order: three listeners fire once each, in
subscription order, and stay registered. -/
theorem C5_emit_order_witness :
    (busThree.emit "e" []).callLog = [(0, []), (1, []), (2, [])] ∧
    (busThree.emit "e" []).listeners = busThree.listeners := by
  have h := C5_emit_order busThree "e" []
    [.record 0, .record 1, .record 2] rfl
    (by
      intro cb hcb
      simp at hcb
      rcases hcb with rfl | rfl | rfl
      · exact ⟨0, rfl⟩
      · exact ⟨1, rfl⟩
      · exact ⟨2, rfl⟩)
  refine ⟨?_, h.2⟩
  rw [h.1]
  rfl

end EufySec
